import Mathlib

/-!
Shallow embedding of the price-window analysis and caching core of the
`bad33ndj3/scriptable-energyprices` repository (three Scriptable widget
variants: `energyprices/energyprices.js`, and the two unnamed variants
`part_000` and `part_001`).

Conventions of the embedding:
* JavaScript timestamps (`Date.getTime()`) are modelled as `Int`
  milliseconds since the epoch.
* JavaScript numbers used for prices and sums are modelled as `ℚ`; the
  initial `bestSum = Infinity` of the window scans is modelled as
  `(none : Option ℚ)`, with `ltInfinity` implementing the comparison
  `sum < bestSum` (every rational is below `Infinity`).
* `JSON.stringify` / `JSON.parse` round-tripping of a payload through the
  cache file is modelled as the identity, so a cache slot stores the
  payload itself together with its write time (the file's modification
  date).
-/

/-- One hourly price quotation.  `fromMs` and `tillMs` embed the JSON
fields `from` and `till` (`from` is a Lean keyword); `price` embeds the
numeric price field (`allInPrice` in the frankenergie variants,
`energyPriceIncl` in the EnergyZero variant). -/
structure Sample where
  fromMs : Int
  tillMs : Int
  price : ℚ
deriving DecidableEq

instance : Inhabited Sample := ⟨⟨0, 0, 0⟩⟩

/-- JavaScript `Math.round`: round half toward positive infinity.  On the
exact rationals produced by the embedding this is `⌊q + 1/2⌋`. -/
def jsRound (q : ℚ) : Int := ⌊q + 1 / 2⌋

/-- Shared body of `filterPrices` (energyprices.js lines 54-62, part_001
lines 72-79) and `filterFuturePrices` (part_000 lines 64-69): keep the
samples whose `from` lies between `now` and `now + horizonMs`, then sort
ascending by `from` (`.sort((a, b) => new Date(a.from) - new Date(b.from))`,
a stable comparison sort, modelled by insertion sort).  The scripts
hard-code `horizonMs = 12 * 60 * 60 * 1000`
(`endTime = new Date(now.getTime() + 12*60*60*1000)`); the horizon is a
parameter here, matching the spec contract
`filterForward(samples, now, horizonHours)`. -/
def filterForward (prices : List Sample) (now horizonMs : Int) : List Sample :=
  List.insertionSort (fun a b => a.fromMs ≤ b.fromMs)
    (prices.filter fun p => decide (now ≤ p.fromMs) && decide (p.fromMs ≤ now + horizonMs))

/-- The `filterPrices` functions of energyprices.js and part_001 (and
`filterFuturePrices` of part_000), with their fixed 12-hour horizon. -/
def filterPrices (prices : List Sample) (now : Int) : List Sample :=
  filterForward prices now (12 * 60 * 60 * 1000)

instance : IsTotal Sample fun a b => a.fromMs ≤ b.fromMs :=
  ⟨fun a b => Int.le_total a.fromMs b.fromMs⟩

instance : IsTrans Sample fun a b => a.fromMs ≤ b.fromMs :=
  ⟨fun _ _ _ => Int.le_trans⟩

lemma mem_filterForward {S : List Sample} {now H : Int} {p : Sample} :
    p ∈ filterForward S now H ↔ p ∈ S ∧ now ≤ p.fromMs ∧ p.fromMs ≤ now + H := by
  unfold filterForward
  rw [(List.perm_insertionSort _ _).mem_iff, List.mem_filter]
  simp

lemma pairwise_filterForward (S : List Sample) (now H : Int) :
    (filterForward S now H).Pairwise fun a b => a.fromMs ≤ b.fromMs := by
  unfold filterForward
  exact List.sorted_insertionSort (fun a b => a.fromMs ≤ b.fromMs)
    (S.filter fun p => decide (now ≤ p.fromMs) && decide (p.fromMs ≤ now + H))

/-- C4: every sample kept by `filterForward S now H` satisfies
`now ≤ fromMs` and `fromMs ≤ now + H` (the condition examines only the
sample's `from` field, never `till`), every sample of `S` satisfying that
condition is kept, and the output is sorted non-decreasing by `from`. -/
theorem claim_C4_filter_bounds_complete_sorted (S : List Sample) (now H : Int)
    (hH : 0 < H) :
    (∀ p ∈ filterForward S now H, now ≤ p.fromMs ∧ p.fromMs ≤ now + H) ∧
    (∀ p ∈ S, now ≤ p.fromMs → p.fromMs ≤ now + H → p ∈ filterForward S now H) ∧
    (filterForward S now H).Pairwise (fun a b => a.fromMs ≤ b.fromMs) := by
  refine ⟨fun p hp => ?_, fun p hp h1 h2 => ?_, pairwise_filterForward S now H⟩
  · exact (mem_filterForward.mp hp).2
  · exact mem_filterForward.mpr ⟨hp, h1, h2⟩

theorem claim_C4_witness :
    (0 : Int) < 3600000 ∧
    ((∀ p ∈ filterForward [⟨0, 3600000, 1⟩] 0 3600000,
        (0 : Int) ≤ p.fromMs ∧ p.fromMs ≤ 0 + 3600000) ∧
     (∀ p ∈ ([⟨0, 3600000, 1⟩] : List Sample), (0 : Int) ≤ p.fromMs →
        p.fromMs ≤ 0 + 3600000 → p ∈ filterForward [⟨0, 3600000, 1⟩] 0 3600000) ∧
     (filterForward [⟨0, 3600000, 1⟩] 0 3600000).Pairwise
        (fun a b => a.fromMs ≤ b.fromMs)) :=
  ⟨by decide, claim_C4_filter_bounds_complete_sorted [⟨0, 3600000, 1⟩] 0 3600000 (by decide)⟩

/-- C9: `filterForward` is idempotent — filtering its own output again
with the same `now` and horizon returns that output unchanged. -/
theorem claim_C9_filter_idempotent (S : List Sample) (now H : Int) :
    filterForward (filterForward S now H) now H = filterForward S now H := by
  have hmem : ∀ p ∈ filterForward S now H,
      (decide (now ≤ p.fromMs) && decide (p.fromMs ≤ now + H)) = true := by
    intro p hp
    have := (mem_filterForward.mp hp).2
    simp only [Bool.and_eq_true, decide_eq_true_eq]
    omega
  have hfilter :
      ((filterForward S now H).filter fun p =>
        decide (now ≤ p.fromMs) && decide (p.fromMs ≤ now + H)) =
        filterForward S now H :=
    List.filter_eq_self.mpr hmem
  have hsorted : List.Sorted (fun a b : Sample => a.fromMs ≤ b.fromMs)
      (filterForward S now H) :=
    pairwise_filterForward S now H
  show List.insertionSort _ ((filterForward S now H).filter _) = _
  rw [hfilter, hsorted.insertionSort_eq]

/-- Comparison `sum < bestSum` of the window scans, where `bestSum` is
initialised to JavaScript `Infinity`, modelled by `none : Option ℚ`
(every rational number is below `Infinity`). -/
def ltInfinity (q : ℚ) : Option ℚ → Bool
  | none => true
  | some b => decide (q < b)

/-- Sum of the length-`w` window of `l` starting at `i`; this is
`l.slice(i, i + w).reduce((a, b) => a + b, 0)` in part_000/part_001. -/
def wsum (l : List ℚ) (w i : ℕ) : ℚ := ((l.drop i).take w).sum

/-- Index list of the JavaScript loop
`for (let i = 0; i <= n - w; i++)` over (possibly negative) JavaScript
integers: no iterations when `n < w`, else `i = 0, ..., n - w`. -/
def startIndices (n w : ℕ) : List ℕ :=
  if n < w then [] else List.range (n - w + 1)

namespace EnergyPricesJs

/-- Inner loop of `findCheapestWindow` in energyprices.js (lines 70-73):
`sum = 0; for (let j = 0; j < windowSize; j++) sum += dataPoints[i + j]`.
Out-of-range indices default to `0`; the outer loop only uses in-range
indices, where this agrees with the slice sum (`sumWindow_eq_wsum`). -/
def sumWindow (dataPoints : List ℚ) (i windowSize : ℕ) : ℚ :=
  (List.range windowSize).foldl (fun sum j => sum + dataPoints.getD (i + j) 0) 0

/-- Outer scan of energyprices.js `findCheapestWindow` (lines 67-78):
`bestSum = Infinity; bestIndex = 0;` then for each start index keep the
window sum if it is strictly below the best so far. -/
def bestFold (dataPoints : List ℚ) (windowSize : ℕ) : Option ℚ × ℕ :=
  (List.range (dataPoints.length - windowSize + 1)).foldl
    (fun best i =>
      if ltInfinity (sumWindow dataPoints i windowSize) best.1 then
        (some (sumWindow dataPoints i windowSize), i)
      else best)
    (none, 0)

/-- energyprices.js lines 64-80: guard `numBars < windowSize → null`,
otherwise scan all start indices `0 .. numBars - windowSize` and return
`{ start: bestIndex, end: bestIndex + windowSize - 1 }`. -/
def findCheapestWindow (dataPoints : List ℚ) (windowSize : ℕ) : Option (ℕ × ℕ) :=
  if dataPoints.length < windowSize then none
  else
    some ((bestFold dataPoints windowSize).2,
      (bestFold dataPoints windowSize).2 + windowSize - 1)

end EnergyPricesJs

namespace Part001

/-- Scan loop of part_001 `findCheapestWindow` (lines 82-86):
`bestSum = Infinity, bestIndex = 0;` then
`for (let i = 0; i <= dataPoints.length - windowSize; i++)` with
`sum = dataPoints.slice(i, i + windowSize).reduce((a, b) => a + b, 0)`
and `if (sum < bestSum) [bestSum, bestIndex] = [sum, i]`. -/
def bestFold (dataPoints : List ℚ) (windowSize : ℕ) : Option ℚ × ℕ :=
  (startIndices dataPoints.length windowSize).foldl
    (fun best i =>
      if ltInfinity (wsum dataPoints windowSize i) best.1 then
        (some (wsum dataPoints windowSize i), i)
      else best)
    (none, 0)

/-- part_001 lines 81-88.  Unlike energyprices.js there is no length
guard: the function always returns
`{ start: bestIndex, end: bestIndex + windowSize - 1 }`, with the
initial `bestIndex = 0` when the loop never runs. -/
def findCheapestWindow (dataPoints : List ℚ) (windowSize : ℕ) : ℕ × ℕ :=
  ((bestFold dataPoints windowSize).2,
    (bestFold dataPoints windowSize).2 + windowSize - 1)

end Part001

namespace Part000

/-- part_000 lines 72-78: `data.reduce((best, _, i, arr) => ...,
{ sum: Infinity, start: 0 })`, skipping indices with
`i > arr.length - windowSize` and otherwise comparing the slice sum
against `best.sum`.  The result is the final `{ sum, start }` pair;
there is no length guard and no `none` case. -/
def findCheapestWindow (data : List ℚ) (windowSize : ℕ) : Option ℚ × ℕ :=
  (List.range data.length).foldl
    (fun best i =>
      if data.length < i + windowSize then best
      else if ltInfinity (wsum data windowSize i) best.1 then
        (some (wsum data windowSize i), i)
      else best)
    (none, 0)

end Part000

/-- Step function shared by all three window scans: replace the best pair
exactly when the candidate sum is strictly below the best sum so far. -/
def stepMin (f : ℕ → ℚ) (best : Option ℚ × ℕ) (i : ℕ) : Option ℚ × ℕ :=
  if ltInfinity (f i) best.1 then (some (f i), i) else best

lemma foldl_stepMin_spec (f : ℕ → ℚ) :
    ∀ k : ℕ, 0 < k →
      ∃ j, (List.range k).foldl (stepMin f) (none, 0) = (some (f j), j) ∧ j < k ∧
        (∀ i, i < k → f j ≤ f i) ∧ (∀ i, i < j → f j < f i) := by
  intro k
  induction k with
  | zero => intro h; omega
  | succ k ih =>
    intro _
    rcases Nat.eq_zero_or_pos k with hk0 | hkpos
    · subst hk0
      refine ⟨0, ?_, by omega, ?_, ?_⟩
      · simp [List.range_succ, stepMin, ltInfinity]
      · intro i hi
        have : i = 0 := by omega
        subst this; exact le_refl _
      · intro i hi; omega
    · obtain ⟨j, hfold, hjk, hmin, hfirst⟩ := ih hkpos
      rw [List.range_succ, List.foldl_append, hfold]
      by_cases hlt : f k < f j
      · refine ⟨k, ?_, by omega, ?_, ?_⟩
        · simp [stepMin, ltInfinity, hlt]
        · intro i hi
          by_cases h : i < k
          · exact le_of_lt (lt_of_lt_of_le hlt (hmin i h))
          · have : i = k := by omega
            subst this; exact le_refl _
        · intro i hi
          exact lt_of_lt_of_le hlt (hmin i hi)
      · refine ⟨j, ?_, by omega, ?_, ?_⟩
        · simp [stepMin, ltInfinity, hlt]
        · intro i hi
          by_cases h : i < k
          · exact hmin i h
          · have : i = k := by omega
            subst this; exact le_of_not_lt hlt
        · exact hfirst

lemma bestFold_spec (l : List ℚ) (w : ℕ) (h1 : 1 ≤ w) (h2 : w ≤ l.length) :
    ∃ j, (List.range (l.length - w + 1)).foldl (stepMin (wsum l w)) (none, 0) =
        (some (wsum l w j), j) ∧
      j + w ≤ l.length ∧
      (∀ i, i + w ≤ l.length → wsum l w j ≤ wsum l w i) ∧
      (∀ i, i + w ≤ l.length → wsum l w i = wsum l w j → j ≤ i) := by
  obtain ⟨j, hfold, hjk, hmin, hfirst⟩ :=
    foldl_stepMin_spec (wsum l w) (l.length - w + 1) (by omega)
  refine ⟨j, hfold, by omega, ?_, ?_⟩
  · intro i hi; exact hmin i (by omega)
  · intro i hi heq
    by_contra hij
    have h3 : i < j := by omega
    have h4 := hfirst i h3
    rw [heq] at h4
    exact lt_irrefl _ h4

lemma sumWindow_eq_wsum (l : List ℚ) :
    ∀ w i : ℕ, i + w ≤ l.length → EnergyPricesJs.sumWindow l i w = wsum l w i := by
  intro w
  induction w with
  | zero => intro i _; simp [EnergyPricesJs.sumWindow, wsum]
  | succ w ih =>
    intro i h
    have hiw : i + w < l.length := by omega
    have hstep : EnergyPricesJs.sumWindow l i (w + 1) =
        EnergyPricesJs.sumWindow l i w + l.getD (i + w) 0 := by
      unfold EnergyPricesJs.sumWindow
      rw [List.range_succ, List.foldl_append]
      rfl
    rw [hstep, ih i (by omega)]
    unfold wsum
    rw [List.take_succ, List.sum_append, List.getElem?_drop,
      List.getD_eq_getElem?_getD, List.getElem?_eq_getElem hiw]
    simp

lemma findCheapestWindowEP_eq_fold (l : List ℚ) (w : ℕ) (h2 : w ≤ l.length) :
    EnergyPricesJs.bestFold l w =
      (List.range (l.length - w + 1)).foldl (stepMin (wsum l w)) (none, 0) := by
  unfold EnergyPricesJs.bestFold
  apply List.foldl_ext
  intro b i hi
  have hiw : i + w ≤ l.length := by
    have := List.mem_range.mp hi
    omega
  rw [sumWindow_eq_wsum l w i hiw]
  rfl

lemma findCheapestWindowP1_eq_fold (l : List ℚ) (w : ℕ) (h2 : w ≤ l.length) :
    Part001.bestFold l w =
      (List.range (l.length - w + 1)).foldl (stepMin (wsum l w)) (none, 0) := by
  unfold Part001.bestFold startIndices
  rw [if_neg (by omega)]
  rfl

lemma foldl_skip {α β : Type} (P : β → Prop) [DecidablePred P] (g : α → β → α) :
    ∀ (l : List β) (init : α),
      l.foldl (fun b i => if P i then b else g b i) init =
        (l.filter fun i => !(decide (P i))).foldl g init := by
  intro l
  induction l with
  | nil => intro init; rfl
  | cons x xs ih =>
    intro init
    by_cases h : P x
    · rw [List.foldl_cons, if_pos h, List.filter_cons, if_neg (by simp [h])]
      exact ih init
    · rw [List.foldl_cons, if_neg h, List.filter_cons, if_pos (by simp [h]),
        List.foldl_cons]
      exact ih (g init x)

lemma filter_range_decide_lt (c m : ℕ) (hcm : c ≤ m) :
    ((List.range m).filter fun i => decide (i < c)) = List.range c := by
  obtain ⟨d, rfl⟩ := Nat.exists_eq_add_of_le hcm
  rw [List.range_add, List.filter_append]
  have h1 : ((List.range c).filter fun i => decide (i < c)) = List.range c :=
    List.filter_eq_self.mpr (by
      intro a ha
      simpa using List.mem_range.mp ha)
  have h2 : (((List.range d).map (c + ·)).filter fun i => decide (i < c)) = [] :=
    List.filter_eq_nil_iff.mpr (by
      intro a ha
      simp only [List.mem_map] at ha
      obtain ⟨t, _, rfl⟩ := ha
      simp)
  rw [h1, h2, List.append_nil]

lemma findCheapestWindowP0_eq_fold (l : List ℚ) (w : ℕ) (h1 : 1 ≤ w)
    (h2 : w ≤ l.length) :
    Part000.findCheapestWindow l w =
      (List.range (l.length - w + 1)).foldl (stepMin (wsum l w)) (none, 0) := by
  unfold Part000.findCheapestWindow
  have hbody : (fun (best : Option ℚ × ℕ) (i : ℕ) =>
      if l.length < i + w then best
      else if ltInfinity (wsum l w i) best.1 then (some (wsum l w i), i) else best) =
      fun b i => if l.length < i + w then b else stepMin (wsum l w) b i := by
    funext b i
    by_cases h : l.length < i + w <;> simp [h, stepMin]
  rw [hbody, foldl_skip (fun i => l.length < i + w) (stepMin (wsum l w))]
  have hpred : (fun i : ℕ => !(decide (l.length < i + w))) =
      fun i : ℕ => decide (i < l.length - w + 1) := by
    funext i
    by_cases h : l.length < i + w
    · have h3 : ¬ i < l.length - w + 1 := by omega
      simp [h, h3]
    · have h3 : i < l.length - w + 1 := by omega
      simp [h, h3]
  rw [hpred, filter_range_decide_lt (l.length - w + 1) l.length (by omega)]

/-- C1: with at least `windowLength` values and `windowLength ≥ 1`,
`findCheapestWindow` (energyprices.js) returns the start index of a
length-`windowLength` window whose sum is at most every other such
window's sum, and among windows of equal minimal sum it returns the
smallest start index. -/
theorem claim_C1_cheapest_window_correct (values : List ℚ) (windowLength : ℕ)
    (h1 : 1 ≤ windowLength) (h2 : windowLength ≤ values.length) :
    ∃ j, EnergyPricesJs.findCheapestWindow values windowLength =
        some (j, j + windowLength - 1) ∧
      j + windowLength ≤ values.length ∧
      (∀ i, i + windowLength ≤ values.length →
        wsum values windowLength j ≤ wsum values windowLength i) ∧
      (∀ i, i + windowLength ≤ values.length →
        wsum values windowLength i = wsum values windowLength j → j ≤ i) := by
  obtain ⟨j, hfold, hjw, hmin, hties⟩ := bestFold_spec values windowLength h1 h2
  refine ⟨j, ?_, hjw, hmin, hties⟩
  unfold EnergyPricesJs.findCheapestWindow
  rw [if_neg (by omega), findCheapestWindowEP_eq_fold values windowLength h2, hfold]

theorem claim_C1_witness :
    (1 : ℕ) ≤ 4 ∧ 4 ≤ ([5, 1, 1, 1, 1, 9] : List ℚ).length ∧
    (∃ j, EnergyPricesJs.findCheapestWindow [5, 1, 1, 1, 1, 9] 4 = some (j, j + 4 - 1) ∧
      j + 4 ≤ ([5, 1, 1, 1, 1, 9] : List ℚ).length ∧
      (∀ i, i + 4 ≤ ([5, 1, 1, 1, 1, 9] : List ℚ).length →
        wsum [5, 1, 1, 1, 1, 9] 4 j ≤ wsum [5, 1, 1, 1, 1, 9] 4 i) ∧
      (∀ i, i + 4 ≤ ([5, 1, 1, 1, 1, 9] : List ℚ).length →
        wsum [5, 1, 1, 1, 1, 9] 4 i = wsum [5, 1, 1, 1, 1, 9] 4 j → j ≤ i)) :=
  ⟨by decide, by decide,
    claim_C1_cheapest_window_correct [5, 1, 1, 1, 1, 9] 4 (by decide) (by decide)⟩

/-- C8: whenever a valid window exists (`1 ≤ w ≤ length`), the three
`findCheapestWindow` implementations — the naive double loop of
energyprices.js, the slice/reduce loop of part_001, and the reduce fold
of part_000 — all report the same start index. -/
theorem claim_C8_implementations_agree (values : List ℚ) (w : ℕ)
    (h1 : 1 ≤ w) (h2 : w ≤ values.length) :
    ∃ j, EnergyPricesJs.findCheapestWindow values w = some (j, j + w - 1) ∧
      Part001.findCheapestWindow values w = (j, j + w - 1) ∧
      (Part000.findCheapestWindow values w).2 = j := by
  obtain ⟨j, hfold, hjw, hmin, hties⟩ := bestFold_spec values w h1 h2
  refine ⟨j, ?_, ?_, ?_⟩
  · unfold EnergyPricesJs.findCheapestWindow
    rw [if_neg (by omega), findCheapestWindowEP_eq_fold values w h2, hfold]
  · unfold Part001.findCheapestWindow
    rw [findCheapestWindowP1_eq_fold values w h2, hfold]
  · rw [findCheapestWindowP0_eq_fold values w h1 h2, hfold]

theorem claim_C8_witness :
    (1 : ℕ) ≤ 4 ∧ 4 ≤ ([5, 1, 1, 1, 1, 9] : List ℚ).length ∧
    (∃ j, EnergyPricesJs.findCheapestWindow [5, 1, 1, 1, 1, 9] 4 = some (j, j + 4 - 1) ∧
      Part001.findCheapestWindow [5, 1, 1, 1, 1, 9] 4 = (j, j + 4 - 1) ∧
      (Part000.findCheapestWindow [5, 1, 1, 1, 1, 9] 4).2 = j) :=
  ⟨by decide, by decide,
    claim_C8_implementations_agree [5, 1, 1, 1, 1, 9] 4 (by decide) (by decide)⟩

/-- C2 fails on part_001 and part_000: on the spec's own example
`values = [3,3,3]`, `windowLength = 4` (fewer values than the window),
only energyprices.js returns `null`; part_001 returns the record
`{ start: 0, end: 3 }` and part_000 returns `{ sum: Infinity, start: 0 }`
because both lack the length guard. -/
theorem claim_C2_missing_guard_eval :
    EnergyPricesJs.findCheapestWindow [3, 3, 3] 4 = none ∧
    Part001.findCheapestWindow [3, 3, 3] 4 = (0, 3) ∧
    Part000.findCheapestWindow [3, 3, 3] 4 = (none, 0) := by
  refine ⟨?_, ?_, ?_⟩ <;> decide

/-- The caching constant of part_000/part_001:
`CACHE_DURATION = 2 * 60 * 60 * 1000` (two hours in milliseconds). -/
def CACHE_DURATION : Int := 2 * 60 * 60 * 1000

/-- Outcome of one `getCachedElectricityPrices` run: the value produced
(`ρ` is `Except` for part_001 whose fetch throws, `Option` for part_000
whose fetch returns `null` on error), the cache slot afterwards, and
whether the network fetch was invoked. -/
structure CacheRun (ρ α : Type) where
  result : ρ
  state : Option (α × Int)
  invoked : Bool
deriving DecidableEq

/-- A cache slot is fresh when it holds a blob whose age `now - writtenAt`
is strictly below `maxAge` (`age < CACHE_DURATION` in the scripts). -/
def fresh {α : Type} (st : Option (α × Int)) (nowMs maxAge : Int) : Prop :=
  ∃ b w, st = some (b, w) ∧ nowMs - w < maxAge

namespace Part001

/-- part_001 lines 53-70.  `st = some (payload, writtenAt)` models the
cache file existing with modification date `writtenAt`; `JSON.parse ∘
JSON.stringify` round-trips, so the slot holds the payload itself.
`fetchRes` is the outcome `await fetchElectricityPrices()` would have;
`Except.error` models the request throwing, which this variant does not
catch, so the error propagates and the `fm.writeString` on line 68 is
never reached.  `maxAge` generalises the script constant
`CACHE_DURATION`. -/
def getCachedElectricityPrices {α : Type} (st : Option (α × Int))
    (nowMs maxAge : Int) (fetchRes : Except String α) :
    CacheRun (Except String α) α :=
  match st with
  | some (blob, writtenAt) =>
    if nowMs - writtenAt < maxAge then ⟨Except.ok blob, some (blob, writtenAt), false⟩
    else
      match fetchRes with
      | Except.ok json => ⟨Except.ok json, some (json, nowMs), true⟩
      | Except.error e => ⟨Except.error e, some (blob, writtenAt), true⟩
  | none =>
    match fetchRes with
    | Except.ok json => ⟨Except.ok json, some (json, nowMs), true⟩
    | Except.error e => ⟨Except.error e, none, true⟩

end Part001

namespace Part000

/-- part_000 lines 45-61.  This variant's `fetchElectricityPrices`
catches its own errors and returns `null` (lines 36-41), modelled by
`fetchRes : Option α`; `if (data) fm.writeString(...)` skips the cache
write when the fetch failed, and the `null` is returned to the caller. -/
def getCachedElectricityPrices {α : Type} (st : Option (α × Int))
    (nowMs maxAge : Int) (fetchRes : Option α) : CacheRun (Option α) α :=
  match st with
  | some (blob, writtenAt) =>
    if nowMs - writtenAt < maxAge then ⟨some blob, some (blob, writtenAt), false⟩
    else
      match fetchRes with
      | some data => ⟨some data, some (data, nowMs), true⟩
      | none => ⟨none, some (blob, writtenAt), true⟩
  | none =>
    match fetchRes with
    | some data => ⟨some data, some (data, nowMs), true⟩
    | none => ⟨none, none, true⟩

end Part000

/-- C3: the cache serves the stored payload without invoking fetch
exactly when an entry exists whose age is strictly below `maxAge`;
otherwise fetch is invoked and, on success, the slot is overwritten with
the fetched payload (written at `now`) which is also returned.  Stated
for both cached variants (part_001 and part_000). -/
theorem claim_C3_cache_fresh_hit_else_fetch {α : Type}
    (st : Option (α × Int)) (now maxAge : Int)
    (fe : Except String α) (fo : Option α) :
    (((Part001.getCachedElectricityPrices st now maxAge fe).invoked = false ∧
      ∃ b w, st = some (b, w) ∧
        (Part001.getCachedElectricityPrices st now maxAge fe).result = Except.ok b) ↔
      fresh st now maxAge) ∧
    (¬ fresh st now maxAge → ∀ p, fe = Except.ok p →
      (Part001.getCachedElectricityPrices st now maxAge fe).invoked = true ∧
      (Part001.getCachedElectricityPrices st now maxAge fe).result = Except.ok p ∧
      (Part001.getCachedElectricityPrices st now maxAge fe).state = some (p, now)) ∧
    (((Part000.getCachedElectricityPrices st now maxAge fo).invoked = false ∧
      ∃ b w, st = some (b, w) ∧
        (Part000.getCachedElectricityPrices st now maxAge fo).result = some b) ↔
      fresh st now maxAge) ∧
    (¬ fresh st now maxAge → ∀ p, fo = some p →
      (Part000.getCachedElectricityPrices st now maxAge fo).invoked = true ∧
      (Part000.getCachedElectricityPrices st now maxAge fo).result = some p ∧
      (Part000.getCachedElectricityPrices st now maxAge fo).state = some (p, now)) := by
  obtain _ | ⟨b0, w0⟩ := st
  · refine ⟨?_, ?_, ?_, ?_⟩
    · cases fe <;> simp [fresh, Part001.getCachedElectricityPrices]
    · intro _ p hp
      subst hp
      simp [Part001.getCachedElectricityPrices]
    · cases fo <;> simp [fresh, Part000.getCachedElectricityPrices]
    · intro _ p hp
      subst hp
      simp [Part000.getCachedElectricityPrices]
  · by_cases hf : now - w0 < maxAge
    · refine ⟨?_, ?_, ?_, ?_⟩
      · simp [fresh, Part001.getCachedElectricityPrices, hf]
        exact ⟨b0, w0, ⟨rfl, rfl⟩, hf⟩
      · intro hnf
        exact absurd ⟨b0, w0, rfl, hf⟩ hnf
      · simp [fresh, Part000.getCachedElectricityPrices, hf]
        exact ⟨b0, w0, ⟨rfl, rfl⟩, hf⟩
      · intro hnf
        exact absurd ⟨b0, w0, rfl, hf⟩ hnf
    · refine ⟨?_, ?_, ?_, ?_⟩
      · cases fe <;> (simp [fresh, Part001.getCachedElectricityPrices, hf]; omega)
      · intro _ p hp
        subst hp
        simp [Part001.getCachedElectricityPrices, hf]
      · cases fo <;> (simp [fresh, Part000.getCachedElectricityPrices, hf]; omega)
      · intro _ p hp
        subst hp
        simp [Part000.getCachedElectricityPrices, hf]

theorem claim_C3_witness :
    fresh (some ((7 : ℤ), (0 : ℤ))) 5400000 CACHE_DURATION ∧
    ((Part001.getCachedElectricityPrices (some ((7 : ℤ), (0 : ℤ))) 5400000
        CACHE_DURATION (Except.error "net")).invoked = false ∧
      ∃ b w, (some ((7 : ℤ), (0 : ℤ))) = some (b, w) ∧
        (Part001.getCachedElectricityPrices (some ((7 : ℤ), (0 : ℤ))) 5400000
          CACHE_DURATION (Except.error "net")).result = Except.ok b) :=
  ⟨⟨7, 0, rfl, by decide⟩,
    (claim_C3_cache_fresh_hit_else_fetch (some ((7 : ℤ), (0 : ℤ))) 5400000
      CACHE_DURATION (Except.error "net") (none : Option ℤ)).1.mpr
      ⟨7, 0, rfl, by decide⟩⟩

/-- C5: when the cache slot is stale or missing and the fetch fails, the
failure is what the caller receives (part_001 propagates the thrown
error, part_000 returns `null`), no stale payload is served, and the
cache slot is left exactly as it was — no write occurs. -/
theorem claim_C5_fetch_failure_propagates {α : Type}
    (st : Option (α × Int)) (now maxAge : Int) (e : String)
    (hnf : ¬ fresh st now maxAge) :
    (Part001.getCachedElectricityPrices st now maxAge (Except.error e)).result =
      Except.error e ∧
    (Part001.getCachedElectricityPrices st now maxAge (Except.error e)).state = st ∧
    (Part001.getCachedElectricityPrices st now maxAge (Except.error e)).invoked = true ∧
    (Part000.getCachedElectricityPrices st now maxAge (none : Option α)).result = none ∧
    (Part000.getCachedElectricityPrices st now maxAge (none : Option α)).state = st ∧
    (Part000.getCachedElectricityPrices st now maxAge (none : Option α)).invoked = true := by
  obtain _ | ⟨b0, w0⟩ := st
  · simp [Part001.getCachedElectricityPrices, Part000.getCachedElectricityPrices]
  · have hf : ¬ now - w0 < maxAge := fun h => hnf ⟨b0, w0, rfl, h⟩
    simp [Part001.getCachedElectricityPrices, Part000.getCachedElectricityPrices, hf]

theorem claim_C5_witness :
    ¬ fresh (none : Option (ℤ × Int)) 0 CACHE_DURATION ∧
    ((Part001.getCachedElectricityPrices (none : Option (ℤ × Int)) 0 CACHE_DURATION
        (Except.error "net")).result = Except.error "net" ∧
      (Part001.getCachedElectricityPrices (none : Option (ℤ × Int)) 0 CACHE_DURATION
        (Except.error "net")).state = none ∧
      (Part001.getCachedElectricityPrices (none : Option (ℤ × Int)) 0 CACHE_DURATION
        (Except.error "net")).invoked = true ∧
      (Part000.getCachedElectricityPrices (none : Option (ℤ × Int)) 0 CACHE_DURATION
        (none : Option ℤ)).result = none ∧
      (Part000.getCachedElectricityPrices (none : Option (ℤ × Int)) 0 CACHE_DURATION
        (none : Option ℤ)).state = none ∧
      (Part000.getCachedElectricityPrices (none : Option (ℤ × Int)) 0 CACHE_DURATION
        (none : Option ℤ)).invoked = true) :=
  ⟨by simp [fresh], claim_C5_fetch_failure_propagates (none : Option (ℤ × Int)) 0
    CACHE_DURATION "net" (by simp [fresh])⟩

/-- Decoded payload as `createWidget` sees it: `some prices` when the
response carries the prices array (`data.marketPrices.electricityPrices`
in the frankenergie variants, `data.energyMarketPrices.prices` in
part_000), `none` when that field is missing or null — a malformed
payload. -/
abbrev Payload := Option (List Sample)

/-- Result of the summary computation (the lines of `createWidget` from
the filtering step onward): either the "Not enough data for graph" early
return, or a chart carrying raw min, raw max and the title's offset
label.  Number formatting of min/max (`toFixed(2)`) is presentation and
is not modelled. -/
inductive SummaryOutcome where
  | insufficientData : SummaryOutcome
  | chart : ℚ → ℚ → String → SummaryOutcome
deriving DecidableEq

/-- Full display outcome of `createWidget`, including the payload checks
that precede the summary computation. -/
inductive WidgetOutcome where
  | noData : WidgetOutcome
  | notEnoughData : WidgetOutcome
  | chart : ℚ → ℚ → String → WidgetOutcome
deriving DecidableEq

/-- JavaScript `Math.min(...xs)` over a non-empty argument spread (the
empty case, which yields `Infinity` in JavaScript, is never reached:
every call site has at least two samples). -/
def listMin : List ℚ → ℚ
  | [] => 0
  | x :: xs => xs.foldl min x

/-- JavaScript `Math.max(...xs)` over a non-empty argument spread. -/
def listMax : List ℚ → ℚ
  | [] => 0
  | x :: xs => xs.foldl max x

/-- Hour offset of the cheapest-window start from `now`, as computed in
every variant: `Math.round((cheapestStartTime - now) / (60 * 60 * 1000))`. -/
def hoursOffset (startMs nowMs : Int) : Int :=
  jsRound (((startMs - nowMs : Int) : ℚ) / (60 * 60 * 1000))

/-- Offset suffix of the energyprices.js title (line 163):
`" @" + Math.round(hoursOffset) + "h"` — no special case at zero. -/
def offsetLabel (h : Int) : String := " @" ++ toString h ++ "h"

/-- Offset suffix of part_001 (line 148) and part_000 (line 139):
`hoursOffset === 0 ? " now" : " @" + hoursOffset + "h"`. -/
def offsetLabelNowFix (h : Int) : String :=
  if h = 0 then " now" else " @" ++ toString h ++ "h"

namespace EnergyPricesJs

/-- Summary portion of energyprices.js `createWidget` (lines 146-166):
the "Not enough data for graph" early return when fewer than two samples
survive filtering, raw min/max over the filtered prices, and — when
`findCheapestWindow` is non-null — the title's offset suffix from the
window's start sample.  When it is null the suffix stays `""`. -/
def buildSummary (prices : List Sample) (now : Int) : SummaryOutcome :=
  if (filterPrices prices now).length < 2 then SummaryOutcome.insufficientData
  else
    match findCheapestWindow ((filterPrices prices now).map Sample.price) 4 with
    | none =>
      SummaryOutcome.chart (listMin ((filterPrices prices now).map Sample.price))
        (listMax ((filterPrices prices now).map Sample.price)) ""
    | some (s, _) =>
      SummaryOutcome.chart (listMin ((filterPrices prices now).map Sample.price))
        (listMax ((filterPrices prices now).map Sample.price))
        (offsetLabel (hoursOffset
          ((filterPrices prices now).getD s default).fromMs now))

end EnergyPricesJs

namespace Part001

/-- Summary portion of part_001 `createWidget` (lines 134-151).  The
`if (cheapestWindow)` test of line 145 is always true — this variant's
`findCheapestWindow` always returns a record — so the offset label is
always produced, with the " now" fix of line 148. -/
def buildSummary (prices : List Sample) (now : Int) : SummaryOutcome :=
  if (filterPrices prices now).length < 2 then SummaryOutcome.insufficientData
  else
    SummaryOutcome.chart (listMin ((filterPrices prices now).map Sample.price))
      (listMax ((filterPrices prices now).map Sample.price))
      (offsetLabelNowFix (hoursOffset
        ((filterPrices prices now).getD
          (findCheapestWindow ((filterPrices prices now).map Sample.price) 4).1
          default).fromMs now))

/-- part_001 `createWidget` decision structure (lines 126-151): a payload
without the prices array, or with an empty one, shows "No electricity
price data"; otherwise the summary decides between "Not enough data for
graph" and the chart. -/
def widgetOutcome (json : Payload) (now : Int) : WidgetOutcome :=
  match json with
  | none => WidgetOutcome.noData
  | some prices =>
    if prices.length = 0 then WidgetOutcome.noData
    else
      match buildSummary prices now with
      | SummaryOutcome.insufficientData => WidgetOutcome.notEnoughData
      | SummaryOutcome.chart mn mx lab => WidgetOutcome.chart mn mx lab

end Part001

namespace Part000

/-- part_000 `filterFuturePrices` (lines 64-69): identical filtering and
sorting to `filterPrices`, with the ambient `new Date()` made an explicit
`now` parameter. -/
def filterFuturePrices (prices : List Sample) (now : Int) : List Sample :=
  filterForward prices now (12 * 60 * 60 * 1000)

/-- Summary portion of part_000 `createWidget` (lines 124-147): identical
decision structure to part_001, using this variant's reduce-based
`findCheapestWindow`, whose `start` field is the second component. -/
def buildSummary (prices : List Sample) (now : Int) : SummaryOutcome :=
  if (filterFuturePrices prices now).length < 2 then SummaryOutcome.insufficientData
  else
    SummaryOutcome.chart (listMin ((filterFuturePrices prices now).map Sample.price))
      (listMax ((filterFuturePrices prices now).map Sample.price))
      (offsetLabelNowFix (hoursOffset
        ((filterFuturePrices prices now).getD
          (findCheapestWindow ((filterFuturePrices prices now).map Sample.price) 4).2
          default).fromMs now))

end Part000

/-- C7: when fewer than two samples survive filtering, each variant's
summary computation returns the insufficient-data outcome as an ordinary
value (the "Not enough data" display branch); the chart constructor —
and with it min/max and the cheapest-window label — is not produced. -/
theorem claim_C7_insufficient_data_is_value (prices : List Sample) (now : Int)
    (h : (filterPrices prices now).length < 2) :
    EnergyPricesJs.buildSummary prices now = SummaryOutcome.insufficientData ∧
    Part001.buildSummary prices now = SummaryOutcome.insufficientData ∧
    Part000.buildSummary prices now = SummaryOutcome.insufficientData := by
  have h0 : (Part000.filterFuturePrices prices now).length < 2 := h
  refine ⟨?_, ?_, ?_⟩
  · unfold EnergyPricesJs.buildSummary
    rw [if_pos h]
  · unfold Part001.buildSummary
    rw [if_pos h]
  · unfold Part000.buildSummary
    rw [if_pos h0]

theorem claim_C7_witness :
    (filterPrices [⟨-3600000, 0, 1⟩] 0).length < 2 ∧
    (EnergyPricesJs.buildSummary [⟨-3600000, 0, 1⟩] 0 = SummaryOutcome.insufficientData ∧
     Part001.buildSummary [⟨-3600000, 0, 1⟩] 0 = SummaryOutcome.insufficientData ∧
     Part000.buildSummary [⟨-3600000, 0, 1⟩] 0 = SummaryOutcome.insufficientData) :=
  ⟨by decide, claim_C7_insufficient_data_is_value [⟨-3600000, 0, 1⟩] 0 (by decide)⟩

/-- C10: a successful fetch is written to the cache slot unconditionally,
with no validation of the payload's shape; any run within `maxAge` of
that write serves the stored payload without fetching, and when the
payload is malformed (no prices array) the widget shows the no-data state
for every such run. -/
theorem claim_C10_malformed_payload_cached (p : Payload) (now later maxAge : Int)
    (fr : Except String Payload) (hage : later - now < maxAge) :
    (Part001.getCachedElectricityPrices (none : Option (Payload × Int)) now maxAge
      (Except.ok p)).state = some (p, now) ∧
    (Part001.getCachedElectricityPrices (some (p, now)) later maxAge fr).result =
      Except.ok p ∧
    (Part001.getCachedElectricityPrices (some (p, now)) later maxAge fr).invoked =
      false ∧
    (p = none → Part001.widgetOutcome p later = WidgetOutcome.noData) := by
  refine ⟨rfl, ?_, ?_, ?_⟩
  · simp [Part001.getCachedElectricityPrices, hage]
  · simp [Part001.getCachedElectricityPrices, hage]
  · intro hp
    subst hp
    rfl

theorem claim_C10_witness :
    ((5400000 : Int) - 0 < CACHE_DURATION) ∧
    ((Part001.getCachedElectricityPrices (none : Option (Payload × Int)) 0
        CACHE_DURATION (Except.ok (none : Payload))).state = some (none, 0) ∧
      (Part001.getCachedElectricityPrices (some ((none : Payload), 0)) 5400000
        CACHE_DURATION (Except.error "net")).result = Except.ok none ∧
      (Part001.getCachedElectricityPrices (some ((none : Payload), 0)) 5400000
        CACHE_DURATION (Except.error "net")).invoked = false ∧
      ((none : Payload) = none →
        Part001.widgetOutcome (none : Payload) 5400000 = WidgetOutcome.noData)) :=
  ⟨by decide, claim_C10_malformed_payload_cached (none : Payload) 0 5400000
    CACHE_DURATION (Except.error "net") (by decide)⟩

lemma part000_eq_filter_fold (l : List ℚ) (w : ℕ) :
    Part000.findCheapestWindow l w =
      ((List.range l.length).filter fun i => !(decide (l.length < i + w))).foldl
        (stepMin (wsum l w)) (none, 0) := by
  unfold Part000.findCheapestWindow
  have hbody : (fun (best : Option ℚ × ℕ) (i : ℕ) =>
      if l.length < i + w then best
      else if ltInfinity (wsum l w i) best.1 then (some (wsum l w i), i) else best) =
      fun b i => if l.length < i + w then b else stepMin (wsum l w) b i := by
    funext b i
    by_cases h : l.length < i + w <;> simp [h, stepMin]
  rw [hbody, foldl_skip (fun i => l.length < i + w) (stepMin (wsum l w))]

lemma startP0_eq_startP1 (l : List ℚ) (w : ℕ) (h1 : 1 ≤ w) :
    (Part000.findCheapestWindow l w).2 = (Part001.findCheapestWindow l w).1 := by
  by_cases h2 : w ≤ l.length
  · rw [findCheapestWindowP0_eq_fold l w h1 h2]
    show _ = (Part001.bestFold l w).2
    rw [findCheapestWindowP1_eq_fold l w h2]
  · rw [part000_eq_filter_fold]
    have hfil : ((List.range l.length).filter fun i => !(decide (l.length < i + w))) =
        [] := by
      apply List.filter_eq_nil_iff.mpr
      intro a ha
      have hmem := List.mem_range.mp ha
      have hlt : l.length < a + w := by omega
      simp [hlt]
    rw [hfil]
    show (0 : ℕ) = (Part001.bestFold l w).2
    unfold Part001.bestFold startIndices
    rw [if_pos (show l.length < w by omega)]
    rfl

lemma offsetLabel_ne_now (h : Int) : offsetLabel h ≠ " now" := by
  intro heq
  have hd := congrArg String.data heq
  unfold offsetLabel at hd
  rw [String.data_append, String.data_append] at hd
  have e1 : " @".data = [' ', '@'] := rfl
  have e2 : "h".data = ['h'] := rfl
  have e3 : " now".data = [' ', 'n', 'o', 'w'] := rfl
  rw [e1, e2, e3] at hd
  simp at hd

lemma offsetLabelNowFix_eq_now_iff (h : Int) :
    offsetLabelNowFix h = " now" ↔ h = 0 := by
  unfold offsetLabelNowFix
  by_cases h0 : h = 0
  · simp [h0]
  · rw [if_neg h0]
    constructor
    · intro heq
      exact absurd heq (offsetLabel_ne_now h)
    · intro h1
      exact absurd h1 h0

lemma hoursOffset_self (t : Int) : hoursOffset t t = 0 := by
  unfold hoursOffset
  rw [sub_self, Int.cast_zero, zero_div]
  unfold jsRound
  rw [zero_add, Int.floor_eq_zero_iff]
  constructor <;> norm_num

/-- C6 is false of the energyprices.js variant: with four samples whose
first starts exactly at `now`, the cheapest-window offset rounds to 0,
yet that variant's title suffix is " @0h", not " now" — energyprices.js
has no zero special case. -/
theorem claim_C6_counterexample :
    EnergyPricesJs.buildSummary
      [⟨0, 3600000, 1⟩, ⟨3600000, 7200000, 1⟩, ⟨7200000, 10800000, 1⟩,
        ⟨10800000, 14400000, 1⟩] 0 =
      SummaryOutcome.chart 1 1 " @0h" ∧
    hoursOffset 0 0 = 0 ∧
    " @0h" ≠ " now" := by
  refine ⟨?_, hoursOffset_self 0, by decide⟩
  have hfc : EnergyPricesJs.findCheapestWindow
      ((filterPrices [⟨0, 3600000, 1⟩, ⟨3600000, 7200000, 1⟩,
        ⟨7200000, 10800000, 1⟩, ⟨10800000, 14400000, 1⟩] 0).map Sample.price) 4 =
      some (0, 3) := by decide
  unfold EnergyPricesJs.buildSummary
  rw [if_neg (by decide)]
  simp only [hfc]
  have h1 : listMin ((filterPrices [⟨0, 3600000, 1⟩, ⟨3600000, 7200000, 1⟩,
      ⟨7200000, 10800000, 1⟩, ⟨10800000, 14400000, 1⟩] 0).map Sample.price) = 1 := by
    decide
  have h2 : listMax ((filterPrices [⟨0, 3600000, 1⟩, ⟨3600000, 7200000, 1⟩,
      ⟨7200000, 10800000, 1⟩, ⟨10800000, 14400000, 1⟩] 0).map Sample.price) = 1 := by
    decide
  have h3 : ((filterPrices [⟨0, 3600000, 1⟩, ⟨3600000, 7200000, 1⟩,
      ⟨7200000, 10800000, 1⟩, ⟨10800000, 14400000, 1⟩] 0).getD 0 default).fromMs =
      0 := by decide
  rw [h1, h2, h3, hoursOffset_self]
  have h4 : offsetLabel 0 = " @0h" := by decide
  rw [h4]

/-- C6 (amended): in every variant the reported hour offset is
`round((filtered[startIndex].from - now) / 1 hour)`; in the cached
variants (part_000 and part_001) the summary label reads " now" exactly
when that offset rounds to 0 and shows the signed "@Nh" form otherwise,
while energyprices.js always shows the signed form — including " @0h"
when the offset rounds to 0. -/
theorem claim_C6_offset_label (prices : List Sample) (now : Int)
    (h2 : 2 ≤ (filterPrices prices now).length) :
    ∃ s h,
      s = (Part001.findCheapestWindow
            ((filterPrices prices now).map Sample.price) 4).1 ∧
      s = (Part000.findCheapestWindow
            ((filterPrices prices now).map Sample.price) 4).2 ∧
      h = hoursOffset ((filterPrices prices now).getD s default).fromMs now ∧
      Part001.buildSummary prices now =
        SummaryOutcome.chart (listMin ((filterPrices prices now).map Sample.price))
          (listMax ((filterPrices prices now).map Sample.price))
          (offsetLabelNowFix h) ∧
      Part000.buildSummary prices now =
        SummaryOutcome.chart (listMin ((filterPrices prices now).map Sample.price))
          (listMax ((filterPrices prices now).map Sample.price))
          (offsetLabelNowFix h) ∧
      (offsetLabelNowFix h = " now" ↔ h = 0) ∧
      (4 ≤ (filterPrices prices now).length →
        EnergyPricesJs.buildSummary prices now =
          SummaryOutcome.chart (listMin ((filterPrices prices now).map Sample.price))
            (listMax ((filterPrices prices now).map Sample.price))
            (offsetLabel h) ∧
        offsetLabel h ≠ " now") := by
  refine ⟨_, _, rfl,
    (startP0_eq_startP1 ((filterPrices prices now).map Sample.price) 4
      (by omega)).symm,
    rfl, ?_, ?_, offsetLabelNowFix_eq_now_iff _, ?_⟩
  · unfold Part001.buildSummary
    rw [if_neg (Nat.not_lt.mpr h2)]
  · have h2f : 2 ≤ (Part000.filterFuturePrices prices now).length := h2
    have hs := startP0_eq_startP1 ((filterPrices prices now).map Sample.price) 4
      (by omega)
    unfold Part000.buildSummary
    rw [if_neg (Nat.not_lt.mpr h2f), ← hs]
    rfl
  · intro h4
    have hlen : 4 ≤ ((filterPrices prices now).map Sample.price).length := by
      rw [List.length_map]
      exact h4
    obtain ⟨j, hfold, hjw, hmin, hties⟩ :=
      bestFold_spec ((filterPrices prices now).map Sample.price) 4 (by omega) hlen
    have hEP : EnergyPricesJs.findCheapestWindow
        ((filterPrices prices now).map Sample.price) 4 = some (j, j + 4 - 1) := by
      unfold EnergyPricesJs.findCheapestWindow
      rw [if_neg (by omega),
        findCheapestWindowEP_eq_fold ((filterPrices prices now).map Sample.price) 4 hlen,
        hfold]
    have hs1 : (Part001.findCheapestWindow
        ((filterPrices prices now).map Sample.price) 4).1 = j := by
      show (Part001.bestFold ((filterPrices prices now).map Sample.price) 4).2 = j
      rw [findCheapestWindowP1_eq_fold ((filterPrices prices now).map Sample.price) 4
        hlen, hfold]
    constructor
    · unfold EnergyPricesJs.buildSummary
      rw [if_neg (Nat.not_lt.mpr h2), hEP, hs1]
    · exact offsetLabel_ne_now _

theorem claim_C6_witness :
    2 ≤ (filterPrices [⟨0, 3600000, 1⟩, ⟨3600000, 7200000, 2⟩] 0).length ∧
    (∃ s h,
      s = (Part001.findCheapestWindow
            ((filterPrices [⟨0, 3600000, 1⟩, ⟨3600000, 7200000, 2⟩] 0).map
              Sample.price) 4).1 ∧
      s = (Part000.findCheapestWindow
            ((filterPrices [⟨0, 3600000, 1⟩, ⟨3600000, 7200000, 2⟩] 0).map
              Sample.price) 4).2 ∧
      h = hoursOffset
            ((filterPrices [⟨0, 3600000, 1⟩, ⟨3600000, 7200000, 2⟩] 0).getD s
              default).fromMs 0 ∧
      Part001.buildSummary [⟨0, 3600000, 1⟩, ⟨3600000, 7200000, 2⟩] 0 =
        SummaryOutcome.chart
          (listMin ((filterPrices [⟨0, 3600000, 1⟩, ⟨3600000, 7200000, 2⟩] 0).map
            Sample.price))
          (listMax ((filterPrices [⟨0, 3600000, 1⟩, ⟨3600000, 7200000, 2⟩] 0).map
            Sample.price))
          (offsetLabelNowFix h) ∧
      Part000.buildSummary [⟨0, 3600000, 1⟩, ⟨3600000, 7200000, 2⟩] 0 =
        SummaryOutcome.chart
          (listMin ((filterPrices [⟨0, 3600000, 1⟩, ⟨3600000, 7200000, 2⟩] 0).map
            Sample.price))
          (listMax ((filterPrices [⟨0, 3600000, 1⟩, ⟨3600000, 7200000, 2⟩] 0).map
            Sample.price))
          (offsetLabelNowFix h) ∧
      (offsetLabelNowFix h = " now" ↔ h = 0) ∧
      (4 ≤ (filterPrices [⟨0, 3600000, 1⟩, ⟨3600000, 7200000, 2⟩] 0).length →
        EnergyPricesJs.buildSummary [⟨0, 3600000, 1⟩, ⟨3600000, 7200000, 2⟩] 0 =
          SummaryOutcome.chart
            (listMin ((filterPrices [⟨0, 3600000, 1⟩, ⟨3600000, 7200000, 2⟩] 0).map
              Sample.price))
            (listMax ((filterPrices [⟨0, 3600000, 1⟩, ⟨3600000, 7200000, 2⟩] 0).map
              Sample.price))
            (offsetLabel h) ∧
        offsetLabel h ≠ " now")) :=
  ⟨by decide,
    claim_C6_offset_label [⟨0, 3600000, 1⟩, ⟨3600000, 7200000, 2⟩] 0 (by decide)⟩
